import Mathlib

/-!
Verification development for the deterministic simulation core of the
snakegame repository.  The Python sources under `src/src/game/` are shallowly
embedded: pure methods become Lean functions, stateful methods become
functions returning the updated object, Python floats are modelled by `ℚ`,
and Python `set`/`dict` become `Finset`/association lists.
-/

namespace SnakeGame

/-- Embeds `Position` from `src/src/game/grid.py`: an immutable 2D grid
position with integer coordinates. -/
structure Position where
  x : Int
  y : Int
deriving DecidableEq, Repr, Inhabited

/-- Embeds `Position.__add__`. -/
def Position.add (a b : Position) : Position := ⟨a.x + b.x, a.y + b.y⟩

instance : Add Position := ⟨Position.add⟩

/-- Embeds the `Direction` enum from `src/src/game/grid.py`. -/
inductive Direction where
  | up
  | down
  | left
  | right
deriving DecidableEq, Repr, Inhabited

/-- Embeds `Direction.value`: the displacement vector of each direction. -/
def Direction.value : Direction → Position
  | .up => ⟨0, -1⟩
  | .down => ⟨0, 1⟩
  | .left => ⟨-1, 0⟩
  | .right => ⟨1, 0⟩

/-- Embeds `Direction.get_opposite` from `src/src/game/grid.py`. -/
def Direction.get_opposite : Direction → Direction
  | .up => .down
  | .down => .up
  | .left => .right
  | .right => .left

/-- Embeds `Grid` from `src/src/game/grid.py`: dimensions plus the set of
occupied positions (`_occupied_positions`, a Python `set`). -/
structure Grid where
  width : Int
  height : Int
  occupied : Finset Position
deriving DecidableEq

/-- Embeds `Grid.is_valid_position`. -/
def Grid.is_valid_position (g : Grid) (p : Position) : Bool :=
  0 ≤ p.x && p.x < g.width && 0 ≤ p.y && p.y < g.height

/-- Embeds `Grid.is_position_occupied`. -/
def Grid.is_position_occupied (g : Grid) (p : Position) : Bool :=
  p ∈ g.occupied

/-- Embeds `Grid.occupy_position`: marks a position occupied, returning
`false` when it was already occupied.  The updated grid is returned
alongside the Python return value. -/
def Grid.occupy_position (g : Grid) (p : Position) : Grid × Bool :=
  if g.is_position_occupied p then (g, false)
  else ({ g with occupied := insert p g.occupied }, true)

/-- Embeds `Grid.free_position`: marks a position free, returning `false`
when it was not occupied. -/
def Grid.free_position (g : Grid) (p : Position) : Grid × Bool :=
  if !g.is_position_occupied p then (g, false)
  else ({ g with occupied := g.occupied.erase p }, true)

/-- Embeds `Grid.wrap_position`.  Python `%` on ints agrees with `Int.emod`
for the positive grid dimensions used here. -/
def Grid.wrap_position (g : Grid) (p : Position) : Position :=
  ⟨p.x % g.width, p.y % g.height⟩

/-- Embeds `Snake` from `src/src/game/snake.py`: body segments (head at
index 0), current and queued direction, and the `growing` flag. -/
structure Snake where
  body : List Position
  direction : Direction
  next_direction : Direction
  growing : Bool
deriving DecidableEq, Repr

/-- Embeds `Snake.get_head` (`self.body[0]`; every snake built by the game
has a nonempty body, `headI` supplies the default on the empty list). -/
def Snake.get_head (s : Snake) : Position := s.body.headI

/-- Embeds `Snake.get_tail` (`self.body[-1]`). -/
def Snake.get_tail (s : Snake) : Position := s.body.getLastD default

/-- Embeds `Snake.get_length`. -/
def Snake.get_length (s : Snake) : Nat := s.body.length

/-- Embeds `Snake.change_direction`: rejects (returns `false`, leaving
`next_direction` untouched) when the requested direction is opposite to the
current one; otherwise queues it and returns `true`. -/
def Snake.change_direction (s : Snake) (new_direction : Direction) :
    Snake × Bool :=
  if Direction.get_opposite new_direction = s.direction then (s, false)
  else ({ s with next_direction := new_direction }, true)

/-- The outcome of `Snake.move`; the Python method returns a bare `bool`,
with each `return False` labelled by a comment naming the collision kind
(wall, self, obstacle).  This enum records which branch produced the
result. -/
inductive MoveOutcome where
  | wallCollision
  | selfCollision
  | obstacleCollision
  | success
deriving DecidableEq, Repr

/-- Embeds `Snake.move` from `src/src/game/snake.py`, keeping each exit
branch labelled with its collision kind.  Mirrors the source order: adopt
the queued direction, compute the new head, wall check (or wrap), whole-body
self-collision check, grid occupancy check; on success prepend the head,
pop-and-free the tail unless growing, then occupy the new head. -/
def Snake.moveFull (s : Snake) (grid : Grid) (wrap_around : Bool) :
    Snake × Grid × MoveOutcome :=
  let s := { s with direction := s.next_direction }
  let new_head := s.get_head + s.direction.value
  if wrap_around then
    let new_head := grid.wrap_position new_head
    if new_head ∈ s.body then (s, grid, .selfCollision)
    else if grid.is_position_occupied new_head then (s, grid, .obstacleCollision)
    else
      let s := { s with body := new_head :: s.body }
      let (s, grid) :=
        if !s.growing then
          let tail := s.body.getLastD default
          ({ s with body := s.body.dropLast }, (grid.free_position tail).1)
        else ({ s with growing := false }, grid)
      (s, (grid.occupy_position new_head).1, .success)
  else if !grid.is_valid_position new_head then (s, grid, .wallCollision)
  else if new_head ∈ s.body then (s, grid, .selfCollision)
  else if grid.is_position_occupied new_head then (s, grid, .obstacleCollision)
  else
    let s := { s with body := new_head :: s.body }
    let (s, grid) :=
      if !s.growing then
        let tail := s.body.getLastD default
        ({ s with body := s.body.dropLast }, (grid.free_position tail).1)
      else ({ s with growing := false }, grid)
    (s, (grid.occupy_position new_head).1, .success)

/-- Embeds `Snake.move`'s boolean result: `True` exactly on the success
branch. -/
def Snake.move (s : Snake) (grid : Grid) (wrap_around : Bool) :
    Snake × Grid × Bool :=
  let (s, g, o) := s.moveFull grid wrap_around
  (s, g, o = .success)

/-- Embeds `Snake.grow`: sets the boolean `growing` flag. -/
def Snake.grow (s : Snake) : Snake := { s with growing := true }

/-- The effective new head cell of a `move` call: the queued direction is
adopted first, and the head displacement is wrapped when `wrap_around`. -/
def Snake.effNewHead (s : Snake) (grid : Grid) (wrap_around : Bool) :
    Position :=
  let p := s.get_head + s.next_direction.value
  if wrap_around then grid.wrap_position p else p

/-- Embeds the `PowerUpType` enum from `src/src/game/power_ups.py`. -/
inductive PowerUpType where
  | speed_boost
  | invincibility
  | score_multiplier
  | growth_boost
  | shield
  | double_points
  | slow_motion
  | magnet
deriving DecidableEq, Repr

/-- Embeds the `PowerUpState` enum from `src/src/game/power_ups.py`. -/
inductive PowerUpState where
  | inactive
  | active
  | cooldown
  | expired
deriving DecidableEq, Repr

/-- Embeds `PowerUpEffect` (the behavioural fields; `description`, `icon`,
`color` and `sound_effect` are presentation-only strings with no effect on
any transition and are not modelled). -/
structure PowerUpEffect where
  power_up_type : PowerUpType
  duration : ℚ
  magnitude : ℚ
  cooldown : ℚ
deriving DecidableEq, Repr

/-- Embeds the `power_up_effects` table built in `PowerUpsManager.__init__`;
the Python dict contains an entry for every `PowerUpType`, so it is a total
function here. -/
def powerUpEffects : PowerUpType → PowerUpEffect
  | .speed_boost => ⟨.speed_boost, 8, 3/2, 15⟩
  | .invincibility => ⟨.invincibility, 6, 1, 20⟩
  | .score_multiplier => ⟨.score_multiplier, 10, 2, 25⟩
  | .growth_boost => ⟨.growth_boost, 0, 3, 30⟩
  | .shield => ⟨.shield, 5, 1, 18⟩
  | .double_points => ⟨.double_points, 12, 2, 30⟩
  | .slow_motion => ⟨.slow_motion, 7, 1/2, 20⟩
  | .magnet => ⟨.magnet, 9, 1, 22⟩

/-- Embeds `ActivePowerUp` from `src/src/game/power_ups.py`. -/
structure ActivePowerUp where
  power_up_type : PowerUpType
  effect : PowerUpEffect
  start_time : ℚ
  end_time : ℚ
  state : PowerUpState
  remaining_duration : ℚ
  cooldown_end_time : ℚ
deriving DecidableEq, Repr

/-- Embeds the `ActivePowerUp` dataclass constructor together with
`__post_init__`: `state` defaults to `ACTIVE`, `remaining_duration` is set
to the effect duration and `cooldown_end_time` to `end_time + cooldown`. -/
def ActivePowerUp.mk' (t : PowerUpType) (effect : PowerUpEffect)
    (start_time end_time : ℚ) : ActivePowerUp :=
  { power_up_type := t
    effect := effect
    start_time := start_time
    end_time := end_time
    state := .active
    remaining_duration := effect.duration
    cooldown_end_time := end_time + effect.cooldown }

/-- Embeds `ActivePowerUp.update`: advances the per-power-up state machine
at `current_time`, returning the mutated object and the Python return value
(`True` iff the power-up is still active). -/
def ActivePowerUp.update (p : ActivePowerUp) (current_time : ℚ) :
    ActivePowerUp × Bool :=
  if p.state = .active then
    if current_time ≥ p.end_time then ({ p with state := .expired }, false)
    else ({ p with remaining_duration := p.end_time - current_time }, true)
  else if p.state = .expired then
    if current_time ≥ p.cooldown_end_time then
      ({ p with state := .inactive }, false)
    else ({ p with state := .cooldown }, false)
  else (p, false)

/-- Embeds `ActivePowerUp.is_active`. -/
def ActivePowerUp.is_active (p : ActivePowerUp) : Bool := p.state = .active

/-- The accumulated effect multipliers dictionary
(`effect_multipliers = {'speed': …, 'score': …, 'growth': …}`). -/
structure EffectMultipliers where
  speed : ℚ
  score : ℚ
  growth : ℚ
deriving DecidableEq, Repr

/-- One step of the loop body of
`PowerUpsManager._update_effect_multipliers`: an `ACTIVE` power-up
multiplies its magnitude into the factor selected by its type; growth is
never written to by any branch. -/
def multiplierStep (m : EffectMultipliers) (p : ActivePowerUp) :
    EffectMultipliers :=
  if p.is_active then
    if p.power_up_type = .speed_boost then
      { m with speed := m.speed * p.effect.magnitude }
    else if p.power_up_type = .score_multiplier then
      { m with score := m.score * p.effect.magnitude }
    else if p.power_up_type = .double_points then
      { m with score := m.score * p.effect.magnitude }
    else if p.power_up_type = .slow_motion then
      { m with speed := m.speed * p.effect.magnitude }
    else m
  else m

/-- Embeds `PowerUpsManager._update_effect_multipliers`: resets all three
multipliers to 1.0 and folds `multiplierStep` over the values of
`active_power_ups` in iteration order. -/
def updateEffectMultipliers (entries : List (PowerUpType × ActivePowerUp)) :
    EffectMultipliers :=
  (entries.map Prod.snd).foldl multiplierStep ⟨1, 1, 1⟩

/-- Insertion-ordered dict assignment `d[k] = v`: an existing key keeps its
position with the value replaced, a new key is appended. -/
def dictSet (l : List (PowerUpType × ActivePowerUp)) (k : PowerUpType)
    (v : ActivePowerUp) : List (PowerUpType × ActivePowerUp) :=
  if l.any (fun e => e.1 = k) then
    l.map (fun e => if e.1 = k then (k, v) else e)
  else l ++ [(k, v)]

/-- Dict lookup `d.get(k)` / `k in d` for the `active_power_ups` dict. -/
def dictGet (l : List (PowerUpType × ActivePowerUp)) (k : PowerUpType) :
    Option ActivePowerUp :=
  (l.find? (fun e => e.1 = k)).map Prod.snd

/-- Embeds `PowerUpsManager` (the behavioural fields: the insertion-ordered
`active_power_ups` dict, history, game clock and accumulated multipliers). -/
structure PowerUpsManager where
  active_power_ups : List (PowerUpType × ActivePowerUp)
  power_up_history : List ActivePowerUp
  current_time : ℚ
  effect_multipliers : EffectMultipliers
deriving DecidableEq, Repr

/-- Embeds `PowerUpsManager.__init__`. -/
def PowerUpsManager.init : PowerUpsManager :=
  { active_power_ups := []
    power_up_history := []
    current_time := 0
    effect_multipliers := ⟨1, 1, 1⟩ }

/-- Embeds `PowerUpsManager.activate_power_up`: rejects only when an entry
for the kind exists in `COOLDOWN` state (the effects table is total, so the
membership check on it always passes); otherwise installs a fresh
`ActivePowerUp` running from `current_time`, appends it to the history and
recomputes the multipliers. -/
def PowerUpsManager.activate_power_up (m : PowerUpsManager)
    (t : PowerUpType) (current_time : ℚ) : PowerUpsManager × Bool :=
  match dictGet m.active_power_ups t with
  | some p =>
    if p.state = .cooldown then (m, false)
    else
      let effect := powerUpEffects t
      let ap := ActivePowerUp.mk' t effect current_time
        (current_time + effect.duration)
      let active := dictSet m.active_power_ups t ap
      ({ m with
          active_power_ups := active
          power_up_history := m.power_up_history ++ [ap]
          effect_multipliers := updateEffectMultipliers active }, true)
  | none =>
    let effect := powerUpEffects t
    let ap := ActivePowerUp.mk' t effect current_time
      (current_time + effect.duration)
    let active := dictSet m.active_power_ups t ap
    ({ m with
        active_power_ups := active
        power_up_history := m.power_up_history ++ [ap]
        effect_multipliers := updateEffectMultipliers active }, true)

/-- Embeds `PowerUpsManager.update`: advances the game clock by
`delta_time`, updates every tracked power-up at the new time, deletes every
entry whose `update` returned `False`, and recomputes the multipliers. -/
def PowerUpsManager.update (m : PowerUpsManager) (delta_time : ℚ) :
    PowerUpsManager :=
  let t := m.current_time + delta_time
  let stepped := m.active_power_ups.map (fun e => (e.1, (e.2.update t)))
  let retained := (stepped.filter (fun e => e.2.2)).map
    (fun e => (e.1, e.2.1))
  { m with
      current_time := t
      active_power_ups := retained
      effect_multipliers := updateEffectMultipliers retained }

/-- Embeds `PowerUpsManager.get_power_up_status`: the tracked state of the
kind, `INACTIVE` when the kind is not tracked. -/
def PowerUpsManager.get_power_up_status (m : PowerUpsManager)
    (t : PowerUpType) : PowerUpState :=
  ((dictGet m.active_power_ups t).map ActivePowerUp.state).getD .inactive

/-- Embeds `PowerUpsManager.has_power_up`. -/
def PowerUpsManager.has_power_up (m : PowerUpsManager) (t : PowerUpType) :
    Bool :=
  ((dictGet m.active_power_ups t).map ActivePowerUp.is_active).getD false

/-- Embeds `PowerUpsManager.get_speed_multiplier`. -/
def PowerUpsManager.get_speed_multiplier (m : PowerUpsManager) : ℚ :=
  m.effect_multipliers.speed

/-- Embeds `PowerUpsManager.get_score_multiplier`. -/
def PowerUpsManager.get_score_multiplier (m : PowerUpsManager) : ℚ :=
  m.effect_multipliers.score

/-- Embeds `PowerUpsManager.get_growth_multiplier`. -/
def PowerUpsManager.get_growth_multiplier (m : PowerUpsManager) : ℚ :=
  m.effect_multipliers.growth

/-- Embeds the `SpeedProgressionType` enum from
`src/src/game/speed_system.py`. -/
inductive SpeedProgressionType where
  | linear
  | exponential
  | logarithmic
  | stepped
  | custom
deriving DecidableEq, Repr

/-- Embeds the `SpeedTransitionType` enum from
`src/src/game/speed_system.py`. -/
inductive SpeedTransitionType where
  | instant
  | smooth
  | ease_in
  | ease_out
  | ease_in_out
deriving DecidableEq, Repr

/-- Embeds the `difficulty_multipliers` default dict of `SpeedConfig`. -/
def defaultDifficultyMultipliers : List (String × ℚ) :=
  [("easy", 4/5), ("medium", 1), ("hard", 13/10)]

/-- Embeds `SpeedConfig` from `src/src/game/speed_system.py` (floats as
`ℚ`; the optional custom progression is a rational-valued function). -/
structure SpeedConfig where
  initial_speed : ℚ
  max_speed : ℚ
  min_speed : ℚ
  progression_type : SpeedProgressionType
  base_increase : ℚ
  level_multiplier : ℚ
  food_eaten_multiplier : ℚ
  transition_type : SpeedTransitionType
  transition_duration : ℚ
  difficulty_multipliers : List (String × ℚ)
  custom_progression_func : Option (Int → Int → ℚ → ℚ)

/-- The default `SpeedConfig()` field values. -/
def SpeedConfig.default : SpeedConfig :=
  { initial_speed := 8
    max_speed := 30
    min_speed := 5
    progression_type := .exponential
    base_increase := 3/10
    level_multiplier := 11/10
    food_eaten_multiplier := 1/20
    transition_type := .smooth
    transition_duration := 1/2
    difficulty_multipliers := defaultDifficultyMultipliers
    custom_progression_func := none }

/-- Embeds `SpeedState` (behavioural fields; the history list and the
performance metrics are telemetry read only by the statistics accessors). -/
structure SpeedState where
  current_speed : ℚ
  target_speed : ℚ
  previous_speed : ℚ
  transition_start_time : ℚ
  transition_progress : ℚ
  is_transitioning : Bool
deriving DecidableEq, Repr

/-- Embeds `SpeedProgressionSystem.__init__` state (behavioural fields). -/
structure SpeedProgressionSystem where
  config : SpeedConfig
  speed_state : SpeedState
  last_food_eaten : Int
  last_level : Int
  last_score : Int
  speed_multiplier : ℚ
  speed_override : Option ℚ

/-- Embeds the `SpeedProgressionSystem(config)` constructor. -/
def SpeedProgressionSystem.init (cfg : SpeedConfig) :
    SpeedProgressionSystem :=
  { config := cfg
    speed_state :=
      { current_speed := cfg.initial_speed
        target_speed := cfg.initial_speed
        previous_speed := cfg.initial_speed
        transition_start_time := 0
        transition_progress := 0
        is_transitioning := false }
    last_food_eaten := 0
    last_level := 1
    last_score := 0
    speed_multiplier := 1
    speed_override := none }

/-- Embeds `_calculate_linear_speed`:
`initial + food·base_increase + (level-1)·level_multiplier`. -/
def SpeedConfig.calculateLinearSpeed (cfg : SpeedConfig)
    (food_eaten level : Int) : ℚ :=
  cfg.initial_speed + food_eaten * cfg.base_increase
    + (level - 1) * cfg.level_multiplier

/-- Embeds `_calculate_exponential_speed`:
`initial · (1 + food_eaten_multiplier)^food · level_multiplier^(level-1)`. -/
def SpeedConfig.calculateExponentialSpeed (cfg : SpeedConfig)
    (food_eaten level : Int) : ℚ :=
  cfg.initial_speed * (1 + cfg.food_eaten_multiplier) ^ food_eaten
    * cfg.level_multiplier ^ (level - 1)

/-- Embeds `_calculate_stepped_speed` (Python `//` is floor division,
`Int.fdiv`). -/
def SpeedConfig.calculateSteppedSpeed (cfg : SpeedConfig)
    (food_eaten level : Int) : ℚ :=
  cfg.initial_speed
    + ((Int.fdiv food_eaten 5) + (level - 1)) * cfg.base_increase

/-- Embeds `_calculate_base_speed`: dispatches on the configured
progression algorithm.  The transcendental `math.log(·, 2)` of the
logarithmic branch is kept abstract as the `log2` argument; every theorem
below quantifies over it. -/
def SpeedConfig.calculateBaseSpeed (cfg : SpeedConfig) (log2 : ℚ → ℚ)
    (food_eaten level : Int) : ℚ :=
  match cfg.progression_type with
  | .linear => cfg.calculateLinearSpeed food_eaten level
  | .exponential => cfg.calculateExponentialSpeed food_eaten level
  | .logarithmic =>
      cfg.initial_speed + log2 (1 + food_eaten * cfg.base_increase)
        + log2 (1 + (level - 1) * cfg.level_multiplier)
  | .stepped => cfg.calculateSteppedSpeed food_eaten level
  | .custom =>
      match cfg.custom_progression_func with
      | some f => f food_eaten level cfg.initial_speed
      | none => cfg.calculateExponentialSpeed food_eaten level

/-- Python's `str.lower()` as used on the ASCII difficulty names
(`difficulty.lower()` in `_update_target_speed`), defined structurally on
the character list so that it evaluates in the kernel. -/
def pyLower (s : String) : String := ⟨s.data.map Char.toLower⟩

/-- Embeds `_should_update_speed`. -/
def SpeedProgressionSystem.shouldUpdateSpeed (sys : SpeedProgressionSystem)
    (food_eaten level score : Int) : Bool :=
  food_eaten ≠ sys.last_food_eaten || level ≠ sys.last_level
    || score ≠ sys.last_score

/-- Embeds `_start_speed_transition` (`time.time()` is the `now`
argument). -/
def SpeedProgressionSystem.startSpeedTransition
    (sys : SpeedProgressionSystem) (target now : ℚ) :
    SpeedProgressionSystem :=
  { sys with speed_state :=
      { sys.speed_state with
          previous_speed := sys.speed_state.current_speed
          target_speed := target
          transition_start_time := now
          transition_progress := 0
          is_transitioning := true } }

/-- Embeds `_update_target_speed`: progression value × difficulty
multiplier × speed multiplier, overridden by `speed_override` when set,
clamped into `[min_speed, max_speed]`; a transition starts only when the
clamped result differs from the current speed by more than 0.1. -/
def SpeedProgressionSystem.updateTargetSpeed (sys : SpeedProgressionSystem)
    (log2 : ℚ → ℚ) (food_eaten level score : Int) (difficulty : String)
    (now : ℚ) : SpeedProgressionSystem :=
  let base_speed := sys.config.calculateBaseSpeed log2 food_eaten level
  let difficulty_mult :=
    ((sys.config.difficulty_multipliers.find?
      (fun e => e.1 = pyLower difficulty)).map Prod.snd).getD 1
  let adjusted_speed := base_speed * difficulty_mult
  let final_speed := adjusted_speed * sys.speed_multiplier
  let final_speed :=
    match sys.speed_override with
    | some v => v
    | none => final_speed
  let final_speed :=
    max sys.config.min_speed (min final_speed sys.config.max_speed)
  let sys :=
    if |final_speed - sys.speed_state.current_speed| > 1/10 then
      sys.startSpeedTransition final_speed now
    else sys
  { sys with
      last_food_eaten := food_eaten
      last_level := level
      last_score := score }

/-- Embeds `_calculate_transition_factor`. -/
def SpeedConfig.calculateTransitionFactor (cfg : SpeedConfig)
    (progress : ℚ) : ℚ :=
  match cfg.transition_type with
  | .instant => 1
  | .smooth => progress
  | .ease_in => progress * progress
  | .ease_out => 1 - (1 - progress) * (1 - progress)
  | .ease_in_out =>
      if progress < 1/2 then 2 * progress * progress
      else 1 - 2 * (1 - progress) * (1 - progress)

/-- Embeds `_update_speed_transitions` (`time.time()` is the `now`
argument): once progress reaches 1 the transition ends at the target;
otherwise the live speed interpolates between `previous` and `target`
through the configured easing. -/
def SpeedProgressionSystem.updateSpeedTransitions
    (sys : SpeedProgressionSystem) (now : ℚ) : SpeedProgressionSystem :=
  if !sys.speed_state.is_transitioning then sys
  else
    let elapsed_time := now - sys.speed_state.transition_start_time
    let progress := elapsed_time / sys.config.transition_duration
    if progress ≥ 1 then
      { sys with speed_state :=
          { sys.speed_state with
              current_speed := sys.speed_state.target_speed
              is_transitioning := false
              transition_progress := 1 } }
    else
      let transition_factor := sys.config.calculateTransitionFactor progress
      let speed_diff :=
        sys.speed_state.target_speed - sys.speed_state.previous_speed
      { sys with speed_state :=
          { sys.speed_state with
              transition_progress := progress
              current_speed :=
                sys.speed_state.previous_speed
                  + speed_diff * transition_factor } }

/-- Embeds `SpeedProgressionSystem.update` (performance tracking and the
speed history are telemetry and not modelled; both `time.time()` reads of
one update call are the single `now` argument). -/
def SpeedProgressionSystem.update (sys : SpeedProgressionSystem)
    (log2 : ℚ → ℚ) (_delta_time : ℚ) (food_eaten level score : Int)
    (difficulty : String) (now : ℚ) : SpeedProgressionSystem :=
  let sys :=
    if sys.shouldUpdateSpeed food_eaten level score then
      sys.updateTargetSpeed log2 food_eaten level score difficulty now
    else sys
  sys.updateSpeedTransitions now

/-- Embeds `get_current_speed`. -/
def SpeedProgressionSystem.get_current_speed
    (sys : SpeedProgressionSystem) : ℚ :=
  sys.speed_state.current_speed

/-- One host call to `SpeedProgressionSystem.update`: its arguments plus
the wall-clock instant `now` at which it runs. -/
structure SpeedUpdateInput where
  delta_time : ℚ
  food_eaten : Int
  level : Int
  score : Int
  difficulty : String
  now : ℚ

/-- Applies a sequence of `update` calls in order. -/
def applySpeedUpdates (log2 : ℚ → ℚ) (sys : SpeedProgressionSystem) :
    List SpeedUpdateInput → SpeedProgressionSystem
  | [] => sys
  | u :: us =>
      applySpeedUpdates log2
        (sys.update log2 u.delta_time u.food_eaten u.level u.score
          u.difficulty u.now) us

/-- The wall clock is monotone: each update's `now` is at least the given
lower bound, and the bounds chain through the list. -/
def ClockMono : ℚ → List SpeedUpdateInput → Prop
  | _, [] => True
  | t, u :: us => t ≤ u.now ∧ ClockMono u.now us

/-- Embeds the `FoodType` enum from `src/src/game/food.py`. -/
inductive FoodType where
  | normal
  | bonus
  | speed_up
  | speed_down
  | double_points
  | invincibility
  | growth_boost
  | magnet_food
  | shield_food
  | time_freeze
  | ghost_mode
  | explosive_food
  | teleport_food
  | rainbow_food
deriving DecidableEq, Repr

/-- Embeds the `FoodRarity` enum from `src/src/game/food.py`. -/
inductive FoodRarity where
  | common
  | uncommon
  | rare
  | epic
  | legendary
deriving DecidableEq, Repr

/-- Embeds `FoodProperties` (behavioural fields; `color`, `symbol`,
`description` and `visual_effects` are presentation-only).  The
`spawn_conditions` dict holds at most the keys `min_score` and
`min_level`, modelled as the two optional fields. -/
structure FoodProperties where
  points : Int
  duration : ℚ
  probability : ℚ
  rarity : FoodRarity
  effect_strength : ℚ
  min_score : Option Int
  min_level : Option Int
deriving DecidableEq, Repr

/-- Embeds the `Food.FOOD_TYPES` class dict in its insertion (and hence
iteration) order. -/
def foodTypesList : List (FoodType × FoodProperties) :=
  [ (.normal, ⟨10, 0, 3/5, .common, 1, none, none⟩)
  , (.bonus, ⟨25, 0, 3/25, .uncommon, 2, some 50, none⟩)
  , (.speed_up, ⟨15, 6, 3/50, .uncommon, 3/2, none, some 2⟩)
  , (.speed_down, ⟨8, 4, 1/25, .uncommon, 1/2, none, some 3⟩)
  , (.double_points, ⟨20, 10, 1/25, .rare, 2, some 100, some 3⟩)
  , (.invincibility, ⟨35, 5, 3/100, .rare, 1, some 150, some 5⟩)
  , (.growth_boost, ⟨30, 0, 3/100, .rare, 3, none, some 4⟩)
  , (.magnet_food, ⟨25, 8, 1/40, .epic, 1, some 200, some 6⟩)
  , (.shield_food, ⟨40, 0, 1/50, .epic, 1, some 300, some 7⟩)
  , (.time_freeze, ⟨50, 3, 3/200, .epic, 3/10, some 400, some 8⟩)
  , (.ghost_mode, ⟨45, 4, 3/200, .epic, 1, some 500, some 9⟩)
  , (.explosive_food, ⟨60, 0, 1/100, .legendary, 1, some 600, some 10⟩)
  , (.teleport_food, ⟨55, 0, 1/100, .legendary, 1, some 800, some 12⟩)
  , (.rainbow_food, ⟨100, 15, 1/200, .legendary, 2, some 1000, some 15⟩) ]

/-- Embeds the `rarity_boosts` dict of `EnhancedFoodManager.__init__`. -/
def rarityBoosts : FoodRarity → ℚ
  | .common => 1
  | .uncommon => 6/5
  | .rare => 3/2
  | .epic => 2
  | .legendary => 3

/-- Embeds `EnhancedFoodManager._can_food_type_spawn`: fails when a
`min_score` condition exists and the score is below it, or a `min_level`
condition exists and the level is below it. -/
def canFoodTypeSpawn (props : FoodProperties) (score level : Int) : Bool :=
  !(props.min_score.elim false (fun ms => score < ms))
    && !(props.min_level.elim false (fun ml => level < ml))

/-- The `available_types` list built by `_select_enhanced_food_type`: every
eligible kind paired with its effective weight
`probability × rarity_boost`. -/
def availableTypes (score level : Int) : List (FoodType × ℚ) :=
  (foodTypesList.filter (fun e => canFoodTypeSpawn e.2 score level)).map
    (fun e => (e.1, e.2.probability * rarityBoosts e.2.rarity))

/-- The `total_probability` accumulated by `_select_enhanced_food_type`. -/
def totalProbability (score level : Int) : ℚ :=
  ((availableTypes score level).map Prod.snd).sum

/-- The `normalized_types` list of `_select_enhanced_food_type`. -/
def normalizedTypes (score level : Int) : List (FoodType × ℚ) :=
  (availableTypes score level).map
    (fun e => (e.1, e.2 / totalProbability score level))

/-- The cumulative-probability walk of `_select_enhanced_food_type`:
returns the first kind whose running total reaches `rand`, or `none` when
the loop falls through. -/
def walkSelect : List (FoodType × ℚ) → ℚ → ℚ → Option FoodType
  | [], _, _ => none
  | (t, p) :: rest, rand, cumulative =>
      if rand ≤ cumulative + p then some t
      else walkSelect rest rand (cumulative + p)

/-- Embeds `EnhancedFoodManager._select_enhanced_food_type` with the
`random.random()` draw passed in as `rand`: when the total eligible weight
is positive, walk the normalized table (the trailing
`return FoodType.NORMAL` is the `getD`); otherwise fall back to `NORMAL`
directly. -/
def selectEnhancedFoodType (score level : Int) (rand : ℚ) : FoodType :=
  if totalProbability score level > 0 then
    (walkSelect (normalizedTypes score level) rand 0).getD .normal
  else .normal

/-- Spec-side reading of the aggregation rule for the speed factor: the
magnitudes of all `ACTIVE` effects mapping to speed (`SPEED_BOOST` and
`SLOW_MOTION`). -/
def activeSpeedMagnitudes (ps : List ActivePowerUp) : List ℚ :=
  (ps.filter (fun p => p.is_active &&
    (p.power_up_type = PowerUpType.speed_boost
      || p.power_up_type = PowerUpType.slow_motion))).map
    (fun p => p.effect.magnitude)

/-- Spec-side reading of the aggregation rule for the score factor: the
magnitudes of all `ACTIVE` effects mapping to score (`SCORE_MULTIPLIER`
and `DOUBLE_POINTS`). -/
def activeScoreMagnitudes (ps : List ActivePowerUp) : List ℚ :=
  (ps.filter (fun p => p.is_active &&
    (p.power_up_type = PowerUpType.score_multiplier
      || p.power_up_type = PowerUpType.double_points))).map
    (fun p => p.effect.magnitude)

/-- The multiplier fold computes the product of the speed magnitudes and
the score magnitudes on top of the accumulator, and never touches the
growth field. -/
theorem foldl_multiplierStep (ps : List ActivePowerUp)
    (m : EffectMultipliers) :
    ps.foldl multiplierStep m =
      ⟨m.speed * (activeSpeedMagnitudes ps).prod,
       m.score * (activeScoreMagnitudes ps).prod, m.growth⟩ := by
  induction ps generalizing m with
  | nil => cases m; simp [activeSpeedMagnitudes, activeScoreMagnitudes]
  | cons p ps ih =>
    simp only [List.foldl_cons, ih]
    unfold multiplierStep activeSpeedMagnitudes activeScoreMagnitudes
    cases hp : p.power_up_type <;>
      cases ha : p.is_active <;>
      simp_all [List.filter_cons] <;> ring

end SnakeGame

namespace SnakeGame

/-- C1: the claim reads "Snake.move fails with a self-collision only when
the new head cell is among the snake's own non-tail cells; a snake whose
new head equals its current tail cell (with no pending growth) moves
successfully".  Counterexample: a four-segment snake curled in a square,
head `(1,0)` turning down onto its own tail `(1,1)`, with no pending
growth, is rejected with a self-collision. -/
theorem C1_tail_chase_counterexample :
    ((Snake.mk [⟨1,0⟩, ⟨0,0⟩, ⟨0,1⟩, ⟨1,1⟩] .right .down false).moveFull
        ⟨5, 5, {⟨1,0⟩, ⟨0,0⟩, ⟨0,1⟩, ⟨1,1⟩}⟩ false).2.2 = .selfCollision ∧
      (Snake.mk [⟨1,0⟩, ⟨0,0⟩, ⟨0,1⟩, ⟨1,1⟩] .right .down false).effNewHead
        ⟨5, 5, {⟨1,0⟩, ⟨0,0⟩, ⟨0,1⟩, ⟨1,1⟩}⟩ false =
        (Snake.mk [⟨1,0⟩, ⟨0,0⟩, ⟨0,1⟩, ⟨1,1⟩] .right .down false).get_tail ∧
      (Snake.mk [⟨1,0⟩, ⟨0,0⟩, ⟨0,1⟩, ⟨1,1⟩] .right .down false).growing
        = false := by
  decide

/-- C1 (amended): `Snake.move` fails with a self-collision exactly when
the new head cell is among the snake's own cells, the tail included — the
whole-body membership test runs before the tail is popped, so a snake
moving into the cell its tail is about to vacate is rejected. -/
theorem C1_self_collision_includes_tail (s : Snake) (g : Grid) (w : Bool) :
    (s.moveFull g w).2.2 = .selfCollision ↔
      (w = true ∨ g.is_valid_position (s.effNewHead g w)) ∧
        s.effNewHead g w ∈ s.body := by
  cases w <;>
    simp only [Snake.moveFull, Snake.effNewHead, Snake.get_head,
      Bool.false_eq_true, if_true, if_false, Bool.not_eq_true] <;>
    split_ifs <;> simp_all

/-- C2: the claim (and the spec scenario) expects a duration-8/cooldown-15
effect activated at t=0 to read `Cooldown` from t=8 until t=23 and a
re-activation at t=10 to return false.  Evaluating the code:
`SPEED_BOOST` (duration 8, cooldown 15) is activated at t=0; after
`update(5)` (t=5) it reads `Active`; after a further `update(4)` (t=9) the
manager has deleted the expired entry, so the status reads `Inactive`, not
`Cooldown`, and re-activating at t=10 returns true. -/
theorem C2_cooldown_never_blocks_reactivation :
    (PowerUpsManager.init.activate_power_up .speed_boost 0).2 = true ∧
      ((PowerUpsManager.init.activate_power_up
          .speed_boost 0).1.update 5).get_power_up_status .speed_boost
        = .active ∧
      (((PowerUpsManager.init.activate_power_up
          .speed_boost 0).1.update 5).update 4).get_power_up_status
          .speed_boost = .inactive ∧
      ¬(((PowerUpsManager.init.activate_power_up
          .speed_boost 0).1.update 5).update 4).get_power_up_status
          .speed_boost = .cooldown ∧
      ((((PowerUpsManager.init.activate_power_up
          .speed_boost 0).1.update 5).update 4).activate_power_up
          .speed_boost 10).2 = true := by
  norm_num +decide [PowerUpsManager.activate_power_up, dictGet, dictSet,
    PowerUpsManager.init, PowerUpsManager.update,
    PowerUpsManager.get_power_up_status, updateEffectMultipliers,
    multiplierStep, ActivePowerUp.mk', powerUpEffects,
    ActivePowerUp.is_active, ActivePowerUp.update]

/-- C3: the claim reads "the derived multiplier for each factor (speed,
score, and growth) equals the product of the magnitudes of all Active
effects mapping to that factor; in particular the growth multiplier
reflects Active growth effects".  Counterexample: with a `GROWTH_BOOST`
effect (magnitude 3.0) active, the growth multiplier is still 1, not 3. -/
theorem C3_growth_multiplier_counterexample :
    (PowerUpsManager.init.activate_power_up .growth_boost 0).1.has_power_up
        .growth_boost = true ∧
      (PowerUpsManager.init.activate_power_up
        .growth_boost 0).1.get_growth_multiplier = 1 ∧
      ¬(PowerUpsManager.init.activate_power_up
        .growth_boost 0).1.get_growth_multiplier = 3 := by
  refine ⟨by simp +decide [PowerUpsManager.activate_power_up, dictGet,
    dictSet, PowerUpsManager.init, PowerUpsManager.has_power_up,
    ActivePowerUp.mk', powerUpEffects, ActivePowerUp.is_active], ?_, ?_⟩ <;>
  · simp +decide [PowerUpsManager.activate_power_up, dictGet, dictSet,
      PowerUpsManager.init, PowerUpsManager.get_growth_multiplier,
      updateEffectMultipliers, multiplierStep, ActivePowerUp.mk',
      powerUpEffects, ActivePowerUp.is_active]

/-- C3 (amended): the speed multiplier is the product of the magnitudes of
all `ACTIVE` effects mapping to speed (`SPEED_BOOST`, `SLOW_MOTION`) and
the score multiplier the product over the effects mapping to score
(`SCORE_MULTIPLIER`, `DOUBLE_POINTS`) — concurrently active effects on the
same factor compound multiplicatively — but the growth multiplier is the
constant 1 and never reflects any active effect. -/
theorem C3_multiplier_aggregation
    (entries : List (PowerUpType × ActivePowerUp)) :
    updateEffectMultipliers entries =
      ⟨(activeSpeedMagnitudes (entries.map Prod.snd)).prod,
       (activeScoreMagnitudes (entries.map Prod.snd)).prod, 1⟩ := by
  unfold updateEffectMultipliers
  rw [foldl_multiplierStep]
  simp

/-- C4: the claim reads "grow increments a pending-growth counter … calling
grow twice and then moving twice (both moves succeeding) increases the
snake's length by exactly two".  Counterexample: a three-segment snake
that grows twice and then moves twice (both moves succeed) has length 4 —
it grew by exactly one, because `grow` sets a boolean flag. -/
theorem C4_double_grow_counterexample :
    (((Snake.mk [⟨2,0⟩, ⟨1,0⟩, ⟨0,0⟩] .right .right false).grow.grow).moveFull
        ⟨10, 10, ∅⟩ false).2.2 = .success ∧
    ((((Snake.mk [⟨2,0⟩, ⟨1,0⟩, ⟨0,0⟩] .right .right false).grow.grow).moveFull
        ⟨10, 10, ∅⟩ false).1.moveFull
      ((((Snake.mk [⟨2,0⟩, ⟨1,0⟩, ⟨0,0⟩] .right .right false).grow.grow).moveFull
        ⟨10, 10, ∅⟩ false)).2.1 false).2.2 = .success ∧
    ((((Snake.mk [⟨2,0⟩, ⟨1,0⟩, ⟨0,0⟩] .right .right false).grow.grow).moveFull
        ⟨10, 10, ∅⟩ false).1.moveFull
      ((((Snake.mk [⟨2,0⟩, ⟨1,0⟩, ⟨0,0⟩] .right .right false).grow.grow).moveFull
        ⟨10, 10, ∅⟩ false)).2.1 false).1.get_length = 4 ∧
    ¬((((Snake.mk [⟨2,0⟩, ⟨1,0⟩, ⟨0,0⟩] .right .right false).grow.grow).moveFull
        ⟨10, 10, ∅⟩ false).1.moveFull
      ((((Snake.mk [⟨2,0⟩, ⟨1,0⟩, ⟨0,0⟩] .right .right false).grow.grow).moveFull
        ⟨10, 10, ∅⟩ false)).2.1 false).1.get_length = 5 := by
  decide

/-- C4 (amended): `grow` sets a boolean flag rather than incrementing a
counter, so repeated `grow` calls collapse into one; a successful move with
the flag set keeps the tail, grows the body by exactly one segment and
clears the flag, while a successful move without it keeps the length. -/
theorem C4_grow_flag_single_growth (s : Snake) (g : Grid) (w : Bool)
    (h : (s.moveFull g w).2.2 = .success) :
    s.grow.growing = true ∧ s.grow.grow = s.grow ∧
      (s.moveFull g w).1.body.length =
        s.body.length + (if s.growing then 1 else 0) ∧
      (s.moveFull g w).1.growing = false ∧
      (s.growing = true →
        (s.moveFull g w).1.body = s.effNewHead g w :: s.body) := by
  refine ⟨rfl, rfl, ?_⟩
  cases w <;>
    simp only [Snake.moveFull, Snake.effNewHead, Snake.get_head] at h ⊢ <;>
    split_ifs at h ⊢ <;>
    simp_all [Snake.grow, List.length_dropLast]

/-- Witness for C4 (amended): a concrete three-segment growing snake whose
move succeeds. -/
theorem C4_grow_flag_single_growth_witness :
    ((Snake.mk [⟨2,0⟩, ⟨1,0⟩, ⟨0,0⟩] .right .right true).moveFull
        ⟨10, 10, ∅⟩ false).2.2 = .success ∧
      ((Snake.mk [⟨2,0⟩, ⟨1,0⟩, ⟨0,0⟩] .right .right true).grow.growing
          = true ∧
        (Snake.mk [⟨2,0⟩, ⟨1,0⟩, ⟨0,0⟩] .right .right true).grow.grow =
          (Snake.mk [⟨2,0⟩, ⟨1,0⟩, ⟨0,0⟩] .right .right true).grow ∧
        ((Snake.mk [⟨2,0⟩, ⟨1,0⟩, ⟨0,0⟩] .right .right true).moveFull
            ⟨10, 10, ∅⟩ false).1.body.length =
          (Snake.mk [⟨2,0⟩, ⟨1,0⟩, ⟨0,0⟩] .right .right true).body.length +
            (if (Snake.mk [⟨2,0⟩, ⟨1,0⟩, ⟨0,0⟩] .right .right true).growing
              then 1 else 0) ∧
        ((Snake.mk [⟨2,0⟩, ⟨1,0⟩, ⟨0,0⟩] .right .right true).moveFull
            ⟨10, 10, ∅⟩ false).1.growing = false ∧
        ((Snake.mk [⟨2,0⟩, ⟨1,0⟩, ⟨0,0⟩] .right .right true).growing = true →
          ((Snake.mk [⟨2,0⟩, ⟨1,0⟩, ⟨0,0⟩] .right .right true).moveFull
              ⟨10, 10, ∅⟩ false).1.body =
            (Snake.mk [⟨2,0⟩, ⟨1,0⟩, ⟨0,0⟩] .right .right true).effNewHead
                ⟨10, 10, ∅⟩ false ::
              (Snake.mk [⟨2,0⟩, ⟨1,0⟩, ⟨0,0⟩] .right .right true).body)) :=
  ⟨by decide,
    C4_grow_flag_single_growth
      (Snake.mk [⟨2,0⟩, ⟨1,0⟩, ⟨0,0⟩] .right .right true)
      ⟨10, 10, ∅⟩ false (by decide)⟩

/-- The cumulative walk returns a kind whenever the remaining weight still
covers `rand` and the list is nonempty. -/
theorem walkSelect_isSome_of_le (l : List (FoodType × ℚ)) (rand : ℚ) :
    ∀ cum, l ≠ [] → rand ≤ cum + (l.map Prod.snd).sum →
      (walkSelect l rand cum).isSome = true := by
  induction l with
  | nil => intro cum h _; exact absurd rfl h
  | cons e rest ih =>
    intro cum _ hle
    obtain ⟨t, p⟩ := e
    simp only [walkSelect]
    split_ifs with h
    · rfl
    · cases rest with
      | nil =>
        exfalso
        simp only [List.map_cons, List.map_nil, List.sum_cons,
          List.sum_nil] at hle
        push_neg at h
        linarith
      | cons f rest2 =>
        apply ih
        · simp
        · simp only [List.map_cons, List.sum_cons] at hle ⊢
          linarith

/-- Dividing every entry of a weight list divides its sum. -/
theorem sum_map_div_snd (l : List (FoodType × ℚ)) (c : ℚ) :
    ((l.map (fun e => Prod.snd e / c))).sum
      = ((l.map Prod.snd).sum) / c := by
  induction l <;> simp_all [add_div]

/-- `NORMAL` has no spawn conditions, so the eligible list is never
empty. -/
theorem availableTypes_ne_nil (score level : Int) :
    availableTypes score level ≠ [] := by
  simp [availableTypes, foodTypesList, List.filter_cons, canFoodTypeSpawn]

/-- Every kind in the static food table has a positive effective weight
(base probability times rarity boost). -/
theorem foodTypesList_weights_pos :
    ∀ e ∈ foodTypesList,
      (0:ℚ) < e.2.probability * rarityBoosts e.2.rarity := by
  intro e he
  fin_cases he <;> norm_num [rarityBoosts]

/-- The accumulated eligible weight is positive for every score and
level. -/
theorem totalProbability_pos (score level : Int) :
    0 < totalProbability score level := by
  unfold totalProbability
  apply List.sum_pos
  · intro x hx
    simp only [availableTypes, List.map_map, List.mem_map,
      List.mem_filter, Function.comp] at hx
    obtain ⟨e, ⟨he, _⟩, rfl⟩ := hx
    exact foodTypesList_weights_pos e he
  · simp only [ne_eq, List.map_eq_nil_iff]
    exact availableTypes_ne_nil score level

/-- C5: for every score and level the eligible-weight total of the actual
food table is positive (so the all-weights-zero fallback branch is never
taken, and a kind is always returned), and for every draw
`rand ∈ [0,1)` the cumulative walk over the normalized eligible weights
itself yields the kind — the selection result is the walk's result, not
the post-loop fallback. -/
theorem C5_weighted_selection_total (score level : Int) (rand : ℚ)
    (_h0 : 0 ≤ rand) (h1 : rand < 1) :
    0 < totalProbability score level ∧
      (walkSelect (normalizedTypes score level) rand 0).isSome = true ∧
      selectEnhancedFoodType score level rand =
        (walkSelect (normalizedTypes score level) rand 0).getD .normal := by
  have hpos := totalProbability_pos score level
  have hsum : ((normalizedTypes score level).map Prod.snd).sum = 1 := by
    unfold normalizedTypes
    rw [List.map_map]
    have hcomp : (Prod.snd ∘ fun e : FoodType × ℚ =>
        (e.1, e.2 / totalProbability score level)) =
        (fun e : FoodType × ℚ =>
          Prod.snd e / totalProbability score level) := by
      funext e; rfl
    rw [hcomp, sum_map_div_snd]
    exact div_self (ne_of_gt hpos)
  refine ⟨hpos, ?_, by simp [selectEnhancedFoodType, hpos]⟩
  apply walkSelect_isSome_of_le
  · simp only [normalizedTypes, ne_eq, List.map_eq_nil_iff]
    exact availableTypes_ne_nil score level
  · rw [hsum]; linarith

/-- Witness for C5: score 0, level 1, draw 1/2. -/
theorem C5_weighted_selection_total_witness :
    (0 ≤ (1/2 : ℚ)) ∧ ((1/2 : ℚ) < 1) ∧
      (0 < totalProbability 0 1 ∧
        (walkSelect (normalizedTypes 0 1) (1/2) 0).isSome = true ∧
        selectEnhancedFoodType 0 1 (1/2) =
          (walkSelect (normalizedTypes 0 1) (1/2) 0).getD .normal) :=
  ⟨by norm_num, by norm_num,
    C5_weighted_selection_total 0 1 (1/2) (by norm_num) (by norm_num)⟩

/-- C7: `change_direction(d)` returns `false` and leaves the queued
direction (and everything else) unchanged exactly when `d` is the reverse
of the current facing; otherwise it queues `d` and returns `true`. -/
theorem C7_reversal_rejected (s : Snake) (d : Direction) :
    ((s.change_direction d).2 = false ↔
        d = Direction.get_opposite s.direction) ∧
      (s.change_direction d).1.next_direction =
        (if d = Direction.get_opposite s.direction
          then s.next_direction else d) ∧
      (s.change_direction d).1.direction = s.direction ∧
      (s.change_direction d).1.body = s.body ∧
      (s.change_direction d).1.growing = s.growing := by
  have hop : Direction.get_opposite d = s.direction ↔
      d = Direction.get_opposite s.direction := by
    cases d <;> cases s.direction <;> simp [Direction.get_opposite]
  unfold Snake.change_direction
  split_ifs <;> simp_all

/-- C8: under exponential progression, the unclamped target is
`base · (1+inc)^food_eaten · level_mult^(level-1)`; with the default config
(base 8, inc 0.05, level multiplier 1.1), food_eaten 10 and level 1 the
value is 16679880978201/1280000000000 ≈ 13.031, within 0.01 of 13.03, and
the clamp into `[min_speed, max_speed]` = [5, 30] leaves it unchanged. -/
theorem C8_exponential_target :
    (∀ (cfg : SpeedConfig) (food_eaten level : Int),
        cfg.calculateExponentialSpeed food_eaten level =
          cfg.initial_speed * (1 + cfg.food_eaten_multiplier) ^ food_eaten
            * cfg.level_multiplier ^ (level - 1)) ∧
      SpeedConfig.default.calculateExponentialSpeed 10 1 =
        16679880978201 / 1280000000000 ∧
      |SpeedConfig.default.calculateExponentialSpeed 10 1 - 1303/100|
        < 1/100 ∧
      max SpeedConfig.default.min_speed
          (min (SpeedConfig.default.calculateExponentialSpeed 10 1)
            SpeedConfig.default.max_speed) =
        SpeedConfig.default.calculateExponentialSpeed 10 1 := by
  have hval : SpeedConfig.default.calculateExponentialSpeed 10 1 =
      16679880978201 / 1280000000000 := by
    simp only [SpeedConfig.calculateExponentialSpeed, SpeedConfig.default]
    norm_num
  refine ⟨fun cfg f l => rfl, hval, ?_, ?_⟩ <;> rw [hval]
  · rw [show (16679880978201/1280000000000 : ℚ) - 1303/100
        = 1480978201/1280000000000 by norm_num]
    rw [abs_of_pos (by norm_num)]
    norm_num
  · norm_num [SpeedConfig.default]

/-- The state invariant carried through the speed-system proofs: the
current speed is within the configured limits, and while a transition is
live its endpoints are within the limits and it started no later than the
wall-clock bound `t`. -/
def SpeedInv (t : ℚ) (sys : SpeedProgressionSystem) : Prop :=
  (sys.config.min_speed ≤ sys.speed_state.current_speed ∧
    sys.speed_state.current_speed ≤ sys.config.max_speed) ∧
  (sys.speed_state.is_transitioning = true →
    sys.config.min_speed ≤ sys.speed_state.previous_speed ∧
    sys.speed_state.previous_speed ≤ sys.config.max_speed ∧
    sys.config.min_speed ≤ sys.speed_state.target_speed ∧
    sys.speed_state.target_speed ≤ sys.config.max_speed ∧
    sys.speed_state.transition_start_time ≤ t)

/-- The invariant is monotone in the wall-clock bound. -/
theorem SpeedInv.mono (t t' : ℚ) (sys : SpeedProgressionSystem)
    (h : SpeedInv t sys) (ht : t ≤ t') : SpeedInv t' sys := by
  obtain ⟨h1, h2⟩ := h
  exact ⟨h1, fun htr => by
    obtain ⟨a, b, c, d, e⟩ := h2 htr
    exact ⟨a, b, c, d, e.trans ht⟩⟩

/-- `_update_target_speed` never changes the configuration. -/
theorem config_updateTargetSpeed (sys : SpeedProgressionSystem)
    (log2 : ℚ → ℚ) (f l sc : Int) (d : String) (now : ℚ) :
    (sys.updateTargetSpeed log2 f l sc d now).config = sys.config := by
  simp only [SpeedProgressionSystem.updateTargetSpeed,
    SpeedProgressionSystem.startSpeedTransition]
  split_ifs <;> rfl

/-- `_update_speed_transitions` never changes the configuration. -/
theorem config_updateSpeedTransitions (sys : SpeedProgressionSystem)
    (now : ℚ) :
    (sys.updateSpeedTransitions now).config = sys.config := by
  simp only [SpeedProgressionSystem.updateSpeedTransitions]
  split_ifs <;> rfl

/-- `update` never changes the configuration. -/
theorem config_update (sys : SpeedProgressionSystem) (log2 : ℚ → ℚ)
    (dt : ℚ) (f l sc : Int) (d : String) (now : ℚ) :
    (sys.update log2 dt f l sc d now).config = sys.config := by
  simp only [SpeedProgressionSystem.update]
  split_ifs
  · rw [config_updateSpeedTransitions, config_updateTargetSpeed]
  · rw [config_updateSpeedTransitions]

/-- Every easing curve maps a progress value in `[0,1)` into `[0,1]`. -/
theorem transitionFactor_mem (cfg : SpeedConfig) (p : ℚ)
    (h0 : 0 ≤ p) (h1 : p < 1) :
    0 ≤ cfg.calculateTransitionFactor p ∧
      cfg.calculateTransitionFactor p ≤ 1 := by
  cases htt : cfg.transition_type <;>
    simp only [SpeedConfig.calculateTransitionFactor, htt] <;>
    (try split_ifs) <;> constructor <;> nlinarith

/-- Interpolating with a factor in `[0,1]` between two values inside
`[lo,hi]` stays inside `[lo,hi]`. -/
theorem interp_mem (lo hi prev targ f : ℚ)
    (hp1 : lo ≤ prev) (hp2 : prev ≤ hi) (ht1 : lo ≤ targ) (ht2 : targ ≤ hi)
    (hf0 : 0 ≤ f) (hf1 : f ≤ 1) :
    lo ≤ prev + (targ - prev) * f ∧ prev + (targ - prev) * f ≤ hi := by
  constructor <;>
    nlinarith [mul_nonneg hf0 (sub_nonneg.2 ht1),
      mul_nonneg (sub_nonneg.2 hf1) (sub_nonneg.2 hp1),
      mul_nonneg hf0 (sub_nonneg.2 ht2),
      mul_nonneg (sub_nonneg.2 hf1) (sub_nonneg.2 hp2)]

/-- `_update_target_speed` preserves the invariant: a freshly started
transition has its target clamped into the limits and starts at `now`. -/
theorem inv_updateTargetSpeed (sys : SpeedProgressionSystem)
    (log2 : ℚ → ℚ) (f l sc : Int) (d : String) (now t : ℚ)
    (h : SpeedInv t sys)
    (hmm : sys.config.min_speed ≤ sys.config.max_speed) (ht : t ≤ now) :
    SpeedInv now (sys.updateTargetSpeed log2 f l sc d now) := by
  simp only [SpeedProgressionSystem.updateTargetSpeed]
  split_ifs with hcond
  · simp only [SpeedProgressionSystem.startSpeedTransition]
    exact ⟨⟨h.1.1, h.1.2⟩, fun _ =>
      ⟨h.1.1, h.1.2, le_max_left _ _,
        max_le hmm (min_le_right _ _), le_refl now⟩⟩
  · exact SpeedInv.mono t now sys h ht

/-- `_update_speed_transitions` preserves the invariant: a completed
transition lands on the (in-range) target, and an unfinished one
interpolates between the in-range endpoints with an easing factor in
`[0,1]`. -/
theorem inv_updateSpeedTransitions (sys : SpeedProgressionSystem) (now : ℚ)
    (h : SpeedInv now sys)
    (hdur : 0 < sys.config.transition_duration) :
    SpeedInv now (sys.updateSpeedTransitions now) := by
  simp only [SpeedProgressionSystem.updateSpeedTransitions]
  split_ifs with h1 h2
  · exact h
  · have htr : sys.speed_state.is_transitioning = true := by
      simpa using h1
    obtain ⟨hp1, hp2, ht1, ht2, hst⟩ := h.2 htr
    exact ⟨⟨ht1, ht2⟩, fun hfalse => by simp at hfalse⟩
  · have htr : sys.speed_state.is_transitioning = true := by
      simpa using h1
    obtain ⟨hp1, hp2, ht1, ht2, hst⟩ := h.2 htr
    have hp0 : 0 ≤ (now - sys.speed_state.transition_start_time) /
        sys.config.transition_duration :=
      div_nonneg (sub_nonneg.2 hst) hdur.le
    have hplt : (now - sys.speed_state.transition_start_time) /
        sys.config.transition_duration < 1 := lt_of_not_ge h2
    obtain ⟨hf0, hf1⟩ := transitionFactor_mem sys.config _ hp0 hplt
    obtain ⟨hlo, hhi⟩ := interp_mem sys.config.min_speed
      sys.config.max_speed sys.speed_state.previous_speed
      sys.speed_state.target_speed _ hp1 hp2 ht1 ht2 hf0 hf1
    exact ⟨⟨hlo, hhi⟩, fun _ => ⟨hp1, hp2, ht1, ht2, hst⟩⟩

/-- One `update` call preserves the invariant when the wall clock has not
gone backwards. -/
theorem inv_update (sys : SpeedProgressionSystem) (log2 : ℚ → ℚ)
    (dt : ℚ) (f l sc : Int) (d : String) (now t : ℚ)
    (h : SpeedInv t sys)
    (hmm : sys.config.min_speed ≤ sys.config.max_speed)
    (hdur : 0 < sys.config.transition_duration) (ht : t ≤ now) :
    SpeedInv now (sys.update log2 dt f l sc d now) := by
  simp only [SpeedProgressionSystem.update]
  split_ifs with hshould
  · exact inv_updateSpeedTransitions _ now
      (inv_updateTargetSpeed sys log2 f l sc d now t h hmm ht)
      (by rw [config_updateTargetSpeed]; exact hdur)
  · exact inv_updateSpeedTransitions _ now
      (SpeedInv.mono t now sys h ht) hdur

/-- A whole monotone-clock update sequence preserves the configuration and
the invariant. -/
theorem inv_applySpeedUpdates (log2 : ℚ → ℚ) :
    ∀ (updates : List SpeedUpdateInput) (sys : SpeedProgressionSystem)
      (t : ℚ), SpeedInv t sys →
      sys.config.min_speed ≤ sys.config.max_speed →
      0 < sys.config.transition_duration →
      ClockMono t updates →
      (applySpeedUpdates log2 sys updates).config = sys.config ∧
        ∃ t', SpeedInv t' (applySpeedUpdates log2 sys updates) := by
  intro updates
  induction updates with
  | nil => exact fun sys t h _ _ _ => ⟨rfl, t, h⟩
  | cons u us ih =>
    intro sys t h hmm hdur hc
    obtain ⟨hct, hcm⟩ := hc
    have hcfg := config_update sys log2 u.delta_time u.food_eaten u.level
      u.score u.difficulty u.now
    have hstep := inv_update sys log2 u.delta_time u.food_eaten u.level
      u.score u.difficulty u.now t h hmm hdur hct
    obtain ⟨hcfg2, t', hinv⟩ := ih
      (sys.update log2 u.delta_time u.food_eaten u.level u.score
        u.difficulty u.now) u.now hstep
      (by rw [hcfg]; exact hmm) (by rw [hcfg]; exact hdur) hcm
    exact ⟨by simp only [applySpeedUpdates]; rw [hcfg2, hcfg], t',
      by simpa only [applySpeedUpdates] using hinv⟩

/-- C6: starting from the initial state of any configuration whose initial
speed lies within `[min_speed, max_speed]` and whose transition duration
is positive, after any sequence of `update` calls under a monotone wall
clock (for arbitrary food counts, levels, scores, difficulty strings,
elapsed times and any progression function, the logarithm included), the
current speed stays within `[min_speed, max_speed]`. -/
theorem C6_speed_stays_in_bounds (cfg : SpeedConfig) (log2 : ℚ → ℚ)
    (updates : List SpeedUpdateInput)
    (hmin : cfg.min_speed ≤ cfg.initial_speed)
    (hmax : cfg.initial_speed ≤ cfg.max_speed)
    (hdur : 0 < cfg.transition_duration)
    (hclock : ClockMono 0 updates) :
    cfg.min_speed ≤
        (applySpeedUpdates log2 (SpeedProgressionSystem.init cfg)
          updates).get_current_speed ∧
      (applySpeedUpdates log2 (SpeedProgressionSystem.init cfg)
          updates).get_current_speed ≤ cfg.max_speed := by
  have h0 : SpeedInv 0 (SpeedProgressionSystem.init cfg) := by
    refine ⟨⟨hmin, hmax⟩, fun htr => ?_⟩
    simp [SpeedProgressionSystem.init] at htr
  obtain ⟨hcfg, t', hinv⟩ := inv_applySpeedUpdates log2 updates
    (SpeedProgressionSystem.init cfg) 0 h0 (hmin.trans hmax) hdur hclock
  have hb := hinv.1
  rw [hcfg] at hb
  exact hb

/-- Witness for C6: the default configuration driven through two concrete
updates at clock instants 1 and 2. -/
theorem C6_speed_stays_in_bounds_witness :
    (SpeedConfig.default.min_speed ≤ SpeedConfig.default.initial_speed) ∧
    (SpeedConfig.default.initial_speed ≤ SpeedConfig.default.max_speed) ∧
    (0 < SpeedConfig.default.transition_duration) ∧
    ClockMono 0 [⟨1/10, 1, 1, 10, "medium", 1⟩,
      ⟨1/10, 2, 1, 20, "hard", 2⟩] ∧
    (SpeedConfig.default.min_speed ≤
        (applySpeedUpdates (fun _ => 0)
          (SpeedProgressionSystem.init SpeedConfig.default)
          [⟨1/10, 1, 1, 10, "medium", 1⟩,
            ⟨1/10, 2, 1, 20, "hard", 2⟩]).get_current_speed ∧
      (applySpeedUpdates (fun _ => 0)
          (SpeedProgressionSystem.init SpeedConfig.default)
          [⟨1/10, 1, 1, 10, "medium", 1⟩,
            ⟨1/10, 2, 1, 20, "hard", 2⟩]).get_current_speed ≤
        SpeedConfig.default.max_speed) :=
  ⟨by norm_num [SpeedConfig.default], by norm_num [SpeedConfig.default],
    by norm_num [SpeedConfig.default],
    ⟨by norm_num, by norm_num, trivial⟩,
    C6_speed_stays_in_bounds SpeedConfig.default (fun _ => 0)
      [⟨1/10, 1, 1, 10, "medium", 1⟩, ⟨1/10, 2, 1, 20, "hard", 2⟩]
      (by norm_num [SpeedConfig.default])
      (by norm_num [SpeedConfig.default])
      (by norm_num [SpeedConfig.default])
      ⟨by norm_num, by norm_num, trivial⟩⟩

/-- C9: `occupy_position` returns `false` exactly on an already-occupied
cell and `release` (`free_position`) returns `false` exactly on a cell
that is not occupied; concretely, with `(0,0),(1,0),(2,0)` occupied,
`(1,0)` is occupied, a first release of `(1,0)` succeeds and leaves it
unoccupied, and a second release returns `false`. -/
theorem C9_occupy_release_booleans (g : Grid) (p : Position) :
    ((g.occupy_position p).2 = !g.is_position_occupied p) ∧
      ((g.free_position p).2 = g.is_position_occupied p) ∧
      (((((Grid.mk 10 10 ∅).occupy_position ⟨0,0⟩).1.occupy_position
          ⟨1,0⟩).1.occupy_position ⟨2,0⟩).1.is_position_occupied ⟨1,0⟩)
        = true ∧
      (((((Grid.mk 10 10 ∅).occupy_position ⟨0,0⟩).1.occupy_position
          ⟨1,0⟩).1.occupy_position ⟨2,0⟩).1.free_position ⟨1,0⟩).2
        = true ∧
      ((((((Grid.mk 10 10 ∅).occupy_position ⟨0,0⟩).1.occupy_position
          ⟨1,0⟩).1.occupy_position ⟨2,0⟩).1.free_position
            ⟨1,0⟩).1.is_position_occupied ⟨1,0⟩) = false ∧
      (((((((Grid.mk 10 10 ∅).occupy_position ⟨0,0⟩).1.occupy_position
          ⟨1,0⟩).1.occupy_position ⟨2,0⟩).1.free_position
            ⟨1,0⟩).1.free_position ⟨1,0⟩).2) = false := by
  refine ⟨?_, ?_, by decide, by decide, by decide, by decide⟩ <;>
    · simp only [Grid.occupy_position, Grid.free_position]
      split_ifs <;> simp_all

/-- C10: whenever `Snake.move` fails (wall, self, or obstacle collision),
the snake's body and growing flag and the grid are left exactly as they
were; only the facing direction has been updated from the queued
direction. -/
theorem C10_failed_move_preserves_state (s : Snake) (g : Grid) (w : Bool)
    (h : (s.moveFull g w).2.2 ≠ .success) :
    (s.moveFull g w).1 = { s with direction := s.next_direction } ∧
      (s.moveFull g w).2.1 = g := by
  cases w <;>
    simp only [Snake.moveFull] at h ⊢ <;>
    split_ifs at h ⊢ <;> simp_all

/-- Witness for C10: a one-segment snake driving into the right wall. -/
theorem C10_failed_move_preserves_state_witness :
    ((Snake.mk [⟨1,0⟩] .right .right false).moveFull ⟨2, 1, ∅⟩ false).2.2
        ≠ .success ∧
      (((Snake.mk [⟨1,0⟩] .right .right false).moveFull ⟨2, 1, ∅⟩
          false).1 =
        { Snake.mk [⟨1,0⟩] .right .right false with
            direction := (Snake.mk [⟨1,0⟩] .right .right
              false).next_direction } ∧
        ((Snake.mk [⟨1,0⟩] .right .right false).moveFull ⟨2, 1, ∅⟩
          false).2.1 = ⟨2, 1, ∅⟩) :=
  ⟨by decide,
    C10_failed_move_preserves_state (Snake.mk [⟨1,0⟩] .right .right false)
      ⟨2, 1, ∅⟩ false (by decide)⟩

end SnakeGame
